import Mathlib

/-!
Verification of the reminder/scheduling core of the `pa_agent_be`
conversational-assistant backend.  The Python sources (`tools/reminder.py`,
`routers/reminder.py`, `utils/cloud_tasks.py`) are embedded shallowly:

* instants are `Int` seconds of local time in the configured timezone
  (Asia/Kuala_Lumpur, a fixed-offset zone without DST, so local-seconds
  arithmetic models `datetime` arithmetic exactly);
* the MongoDB `reminders` collection, the APScheduler job table and the
  Cloud Tasks queue are explicit lists threaded through the functions;
* external collaborators (`dateparser`, WhatsApp delivery, Google Calendar,
  ObjectId generation) are oracle parameters;
* Python exceptions are `Except`/`Option` values and each `try/except`
  block is the corresponding `match`.
-/

namespace PaAgent

/-- Local midnight of the day containing `t`; models
`now.replace(hour=0, minute=0, second=0, microsecond=0)` for seconds
granularity.  `Int.emod` is non-negative for the positive modulus. -/
def dayStart (t : Int) : Int := t - t % 86400

/-- Build a local instant from a day number and a clock time. -/
def localTime (day : Int) (h m s : Nat) : Int :=
  day * 86400 + (h : Int) * 3600 + (m : Int) * 60 + (s : Int)

/-- A document of the MongoDB `reminders` collection (tools/reminder.py).
Fields absent from a given document are `none` / defaulted. -/
structure Reminder where
  id : Nat
  userId : String := ""
  phoneNumber : String := ""
  rType : String := ""
  message : String := ""
  reminderTime : Option Int := none
  status : String := ""
  error : Option String := none
  sentAt : Option Int := none
  missedAt : Option Int := none
  createdAt : Option Int := none
  eventTitle : Option String := none
  eventDatetime : Option Int := none
  minutesBefore : Option Nat := none
  originalTimeInput : Option String := none
  normalizedTimeInput : Option String := none
deriving DecidableEq, Repr

/-- A Cloud Tasks queue entry (utils/cloud_tasks.py): an HTTP POST task
with a target url and a schedule time. -/
structure QueueTask where
  url : String
  scheduleTime : Int
deriving DecidableEq, Repr

/-- utils/cloud_tasks.py, `schedule_daily_task` lines 47-55: today at
`hour:minute` in the configured timezone, pushed to tomorrow when that
instant is already past. -/
def nextDailyFire (now : Int) (hour minute : Nat) : Int :=
  let target := dayStart now + (hour : Int) * 3600 + (minute : Int) * 60
  if target ≤ now then target + 86400 else target

/-- utils/cloud_tasks.py `schedule_daily_task`: enqueue one HTTP task for
the next daily occurrence (the ALREADY_EXISTS delete-then-recreate path
also ends with the same single enqueued task). -/
def schedule_daily_task (endpointUrl : String) (hour minute : Nat) (now : Int)
    (queue : List QueueTask) : List QueueTask :=
  queue ++ [⟨endpointUrl, nextDailyFire now hour minute⟩]

/-- The names bound at module level in utils/cloud_tasks.py. -/
def cloudTasksDefNames : List String :=
  ["schedule_daily_task", "enqueue_message", "enqueue_announcement"]

/-- `from utils.cloud_tasks import n` for a daily-scheduling callable:
yields the callable when `n` is defined in the module, `none` when
ImportError is raised (the only such callable defined is
`schedule_daily_task`). -/
def importDailyFn (n : String) :
    Option (String → Nat → Nat → Int → List QueueTask → List QueueTask) :=
  if n = "schedule_daily_task" then some schedule_daily_task else none

/-- Return value of the daily briefing endpoints plus their effect on the
dispatch queue.  `rescheduled` records whether a next-day task was
enqueued. -/
structure DailyResult where
  status : String
  usersProcessed : Nat
  queue : List QueueTask
  rescheduled : Bool
deriving DecidableEq, Repr

/-- routers/reminder.py `today_reminder_handler` (lines 38-134).  The
per-user digest loop only talks to external collaborators (calendar,
tasks, WhatsApp) and cannot affect the dispatch queue; it is summarised by
`usersProcessed`.  The reschedule block (lines 114-129) runs
`from utils.cloud_tasks import reschedule_daily_task_for_next_day` inside
`try`, and its `except Exception` swallows the failure and falls through
to the success response. -/
def today_reminder_handler (appUrl : String) (now : Int)
    (queue : List QueueTask) (usersProcessed : Nat) : DailyResult :=
  match importDailyFn "reschedule_daily_task_for_next_day" with
  | some f =>
      { status := "success", usersProcessed := usersProcessed,
        queue := f (appUrl ++ "/reminder/daily/today") 8 30 now queue,
        rescheduled := true }
  | none =>
      { status := "success", usersProcessed := usersProcessed,
        queue := queue, rescheduled := false }

/-- routers/reminder.py `tomorrow_reminder_handler` (lines 136-248), same
structure as the today handler with the 19:30 slot. -/
def tomorrow_reminder_handler (appUrl : String) (now : Int)
    (queue : List QueueTask) (usersProcessed : Nat) : DailyResult :=
  match importDailyFn "reschedule_daily_task_for_next_day" with
  | some f =>
      { status := "success", usersProcessed := usersProcessed,
        queue := f (appUrl ++ "/reminder/daily/tomorrow") 19 30 now queue,
        rescheduled := true }
  | none =>
      { status := "success", usersProcessed := usersProcessed,
        queue := queue, rescheduled := false }

/-- C1: the daily briefing handlers are claimed to re-enqueue their own
next occurrence before returning.  In the code both handlers import
`reschedule_daily_task_for_next_day` from utils/cloud_tasks.py, a name the
module does not define, so the import raises ImportError, the surrounding
`except` swallows it, and the handler returns success with the dispatch
queue unchanged: no next-day task is ever enqueued. -/
theorem daily_handlers_do_not_reenqueue (appUrl : String) (now : Int)
    (queue : List QueueTask) (users : Nat) :
    cloudTasksDefNames.contains "reschedule_daily_task_for_next_day" = false ∧
    today_reminder_handler appUrl now queue users =
      { status := "success", usersProcessed := users, queue := queue,
        rescheduled := false } ∧
    tomorrow_reminder_handler appUrl now queue users =
      { status := "success", usersProcessed := users, queue := queue,
        rescheduled := false } := by
  refine ⟨by decide, ?_, ?_⟩ <;>
    simp [today_reminder_handler, tomorrow_reminder_handler, importDailyFn]

/-! ### Reload-on-restart Reconciler (tools/reminder.py `reload_reminders`) -/

/-- APScheduler job id `f"reminder_{reminder_id}"`. -/
def jobIdOf (r : Reminder) : String := "reminder_" ++ toString r.id

/-- `scheduler.get_job(job_id)` is truthy: some job in the table has this
id. -/
def hasJob (jobs : List (String × Int)) (jid : String) : Bool :=
  jobs.any (fun j => j.1 == jid)

/-- MongoDB `update_one({"_id": i}, {"$set": ...})`: rewrite the documents
whose id matches. -/
def setById (store : List Reminder) (i : Nat) (f : Reminder → Reminder) :
    List Reminder :=
  store.map (fun x => if x.id == i then f x else x)

/-- State threaded through `reload_reminders`: the store, the APScheduler
job table (job id, run date) and the three counters. -/
structure ReloadState where
  store : List Reminder
  jobs : List (String × Int)
  reloaded : Nat
  skipped : Nat
  errors : Nat
deriving DecidableEq, Repr

/-- The re-schedule step of the reload loop (tools/reminder.py lines
411-429): skip when the job handle already exists, otherwise add the job
and count the reminder as reloaded. -/
def scheduleStep (st : ReloadState) (r : Reminder) (t : Int) : ReloadState :=
  if hasJob st.jobs (jobIdOf r) then st
  else { st with jobs := st.jobs ++ [(jobIdOf r, t)],
                 reloaded := st.reloaded + 1 }

/-- The record update `{"$set": {"status": "missed", "missed_at": now}}`. -/
def markMissed (now : Int) (x : Reminder) : Reminder :=
  { x with status := "missed", missedAt := some now }

/-- One iteration of the reload loop (tools/reminder.py lines 386-435).
`fail r = some e` models the per-record `except Exception` catching an
exception raised while processing record `r` (e.g. a malformed
`reminder_time` value): the error counter is bumped and the loop
continues. -/
def processReminder (fail : Reminder → Option String) (now : Int)
    (st : ReloadState) (r : Reminder) : ReloadState :=
  match fail r with
  | some _ => { st with errors := st.errors + 1 }
  | none =>
    match r.reminderTime with
    | none => { st with errors := st.errors + 1 }
    | some t =>
      if t ≤ now then
        if now - t ≤ 300 then
          -- within the 5-minute grace period: schedule immediately
          scheduleStep st r t
        else
          { st with store := setById st.store r.id (markMissed now),
                    skipped := st.skipped + 1 }
      else scheduleStep st r t

/-- The Mongo query
`find({"status": "scheduled", "reminder_time": {"$exists": True}})`,
materialised with `to_list` before the loop starts. -/
def scheduledQuery (store : List Reminder) : List Reminder :=
  store.filter (fun r => r.status == "scheduled" && r.reminderTime.isSome)

/-- The body of `reload_reminders` after the query: fold the per-record
step over the materialised record list. -/
def runReload (fail : Reminder → Option String) (now : Int)
    (store : List Reminder) (jobs : List (String × Int)) : ReloadState :=
  (scheduledQuery store).foldl (processReminder fail now)
    ⟨store, jobs, 0, 0, 0⟩

/-- Return value of `reload_reminders`: the counters dict on the normal
path, the `{"error": str(e)}` dict when the outer `try` catches. -/
inductive ReloadResult where
  | counts (reloaded skipped errors : Nat)
  | errorDict (msg : String)
deriving DecidableEq, Repr

/-- tools/reminder.py `reload_reminders` (lines 361-446) with its outer
`try/except`.  `queryFault` models an exception raised before the
per-record loop (e.g. the Mongo query failing): the handler returns the
`{"error": ...}` dict with no state mutated. -/
def reload_reminders (queryFault : Option String)
    (fail : Reminder → Option String) (now : Int)
    (store : List Reminder) (jobs : List (String × Int)) :
    ReloadResult × List Reminder × List (String × Int) :=
  match queryFault with
  | some e => (.errorDict e, store, jobs)
  | none =>
    let st := runReload fail now store jobs
    (.counts st.reloaded st.skipped st.errors, st.store, st.jobs)

/-- The no-exception execution of the loop body. -/
def noFault : Reminder → Option String := fun _ => none

/-- C4: grace-period boundary of the Reconciler.  A scheduled reminder
whose fire time is 4 minutes 59 seconds in the past is re-added to the
scheduler under its `reminder_{id}` handle and counted as reloaded, with
its stored record unchanged; one whose fire time is 5 minutes 1 second in
the past is marked missed with `missed_at = now`, not enqueued, and
counted as skipped. -/
theorem reload_grace_boundary (r : Reminder) (jobs : List (String × Int))
    (now : Int) (hs : r.status = "scheduled")
    (hj : hasJob jobs (jobIdOf r) = false) :
    (r.reminderTime = some (now - 299) →
      runReload noFault now [r] jobs =
        ⟨[r], jobs ++ [(jobIdOf r, now - 299)], 1, 0, 0⟩) ∧
    (r.reminderTime = some (now - 301) →
      runReload noFault now [r] jobs =
        ⟨[{ r with status := "missed", missedAt := some now }], jobs,
          0, 1, 0⟩) := by
  constructor <;> intro ht <;>
    simp [runReload, scheduledQuery, hs, ht, processReminder, noFault,
      scheduleStep, hj, setById, markMissed, show now - 299 ≤ now by omega,
      show now - (now - 299) ≤ 300 by omega,
      show now - 301 ≤ now by omega,
      show ¬(now - (now - 301) ≤ 300) by omega]

/-- Witness for C4 at a concrete reminder and clock. -/
theorem reload_grace_boundary_witness :
    let r : Reminder := { id := 5, status := "scheduled",
                          reminderTime := some 701 }
    runReload noFault 1000 [r] [] = ⟨[r], [("reminder_5", 701)], 1, 0, 0⟩ ∧
    (runReload noFault 1000
        [{ r with reminderTime := some 699 }] []).store =
      [{ r with reminderTime := some 699, status := "missed",
                missedAt := some 1000 }] := by
  intro r
  have h1 := (reload_grace_boundary r [] 1000 rfl rfl).1 rfl
  have h2 := (reload_grace_boundary { r with reminderTime := some 699 }
    [] 1000 rfl rfl).2 rfl
  constructor
  · exact h1.trans (by decide)
  · rw [h2]

/-! Lemmas about one iteration of the reload loop. -/

lemma hasJob_append (jobs : List (String × Int)) (e : String × Int)
    (jid : String) :
    hasJob (jobs ++ [e]) jid = (hasJob jobs jid || (e.1 == jid)) := by
  simp [hasJob, List.any_append]

/-- In the faulty case the iteration only bumps the error counter. -/
lemma processReminder_eq_fail (fail : Reminder → Option String) (now : Int)
    (st : ReloadState) (r : Reminder) (e : String) (hf : fail r = some e) :
    processReminder fail now st r = { st with errors := st.errors + 1 } := by
  simp [processReminder, hf]

/-- In the past-beyond-grace case the iteration marks the record missed
and counts it skipped. -/
lemma processReminder_eq_missed (fail : Reminder → Option String) (now : Int)
    (st : ReloadState) (r : Reminder) (t : Int)
    (hf : fail r = none) (ht : r.reminderTime = some t)
    (h1 : t ≤ now) (h2 : ¬ now - t ≤ 300) :
    processReminder fail now st r =
      { st with store := setById st.store r.id (markMissed now),
                skipped := st.skipped + 1 } := by
  simp [processReminder, hf, ht, h1, h2]

/-- In the future-or-within-grace case the iteration is the re-schedule
step. -/
lemma processReminder_eq_schedule (fail : Reminder → Option String)
    (now : Int) (st : ReloadState) (r : Reminder) (t : Int)
    (hf : fail r = none) (ht : r.reminderTime = some t)
    (hb : now < t ∨ now - t ≤ 300) :
    processReminder fail now st r = scheduleStep st r t := by
  by_cases h1 : t ≤ now
  · have h2 : now - t ≤ 300 := by rcases hb with hb | hb <;> omega
    simp [processReminder, hf, ht, h1, h2]
  · simp [processReminder, hf, ht, h1]

lemma scheduleStep_of_hasJob (st : ReloadState) (r : Reminder) (t : Int)
    (hj : hasJob st.jobs (jobIdOf r) = true) :
    scheduleStep st r t = st := by
  simp [scheduleStep, hj]

lemma scheduleStep_store (st : ReloadState) (r : Reminder) (t : Int) :
    (scheduleStep st r t).store = st.store := by
  unfold scheduleStep
  split <;> rfl

lemma scheduleStep_hasJob (st : ReloadState) (r : Reminder) (t : Int) :
    hasJob (scheduleStep st r t).jobs (jobIdOf r) = true := by
  by_cases hj : hasJob st.jobs (jobIdOf r) = true
  · simp [scheduleStep, hj]
  · simp only [Bool.not_eq_true] at hj
    simp [scheduleStep, hj, hasJob_append]

lemma scheduleStep_jobs_mono (st : ReloadState) (r : Reminder) (t : Int)
    (jid : String) (h : hasJob st.jobs jid = true) :
    hasJob (scheduleStep st r t).jobs jid = true := by
  by_cases hj : hasJob st.jobs (jobIdOf r) = true
  · simp [scheduleStep, hj, h]
  · simp only [Bool.not_eq_true] at hj
    simp [scheduleStep, hj, hasJob_append, h]

lemma processReminder_jobs_mono (fail : Reminder → Option String) (now : Int)
    (st : ReloadState) (r : Reminder) (jid : String)
    (h : hasJob st.jobs jid = true) :
    hasJob (processReminder fail now st r).jobs jid = true := by
  rcases hfr : fail r with _ | e
  · rcases hr : r.reminderTime with _ | t
    · simp [processReminder, hfr, hr, h]
    · by_cases h1 : t ≤ now
      · by_cases h2 : now - t ≤ 300
        · rw [processReminder_eq_schedule fail now st r t hfr hr (Or.inr h2)]
          exact scheduleStep_jobs_mono st r t jid h
        · rw [processReminder_eq_missed fail now st r t hfr hr h1 h2]
          exact h
      · rw [processReminder_eq_schedule fail now st r t hfr hr
          (Or.inl (by omega))]
        exact scheduleStep_jobs_mono st r t jid h
  · rw [processReminder_eq_fail fail now st r e hfr]
    exact h

lemma mem_setById_markMissed {x : Reminder} {store : List Reminder}
    {i : Nat} {now : Int}
    (h : x ∈ setById store i (markMissed now)) :
    x ∈ store ∨ x.status = "missed" := by
  simp only [setById, List.mem_map] at h
  obtain ⟨y, hy, hxy⟩ := h
  by_cases hid : y.id == i
  · right
    rw [if_pos hid] at hxy
    rw [← hxy]
    rfl
  · left
    rw [if_neg hid] at hxy
    exact hxy ▸ hy

lemma processReminder_store_mem (fail : Reminder → Option String) (now : Int)
    (st : ReloadState) (r : Reminder) {x : Reminder}
    (h : x ∈ (processReminder fail now st r).store) :
    x ∈ st.store ∨ x.status = "missed" := by
  rcases hfr : fail r with _ | e
  · rcases hr : r.reminderTime with _ | t
    · rw [show processReminder fail now st r =
          { st with errors := st.errors + 1 } by
        simp [processReminder, hfr, hr]] at h
      exact Or.inl h
    · by_cases h1 : t ≤ now
      · by_cases h2 : now - t ≤ 300
        · rw [processReminder_eq_schedule fail now st r t hfr hr (Or.inr h2),
            scheduleStep_store] at h
          exact Or.inl h
        · rw [processReminder_eq_missed fail now st r t hfr hr h1 h2] at h
          exact mem_setById_markMissed h
      · rw [processReminder_eq_schedule fail now st r t hfr hr
          (Or.inl (by omega)), scheduleStep_store] at h
        exact Or.inl h
  · rw [processReminder_eq_fail fail now st r e hfr] at h
    exact Or.inl h

/-- Once every store document with id `i` is non-`scheduled`, each further
loop iteration keeps it so. -/
lemma processReminder_unscheduled_perm (fail : Reminder → Option String)
    (now : Int) (st : ReloadState) (r : Reminder) (i : Nat)
    (h : ∀ x ∈ st.store, x.id = i → x.status ≠ "scheduled") :
    ∀ x ∈ (processReminder fail now st r).store, x.id = i →
      x.status ≠ "scheduled" := by
  intro x hx hxi
  rcases processReminder_store_mem fail now st r hx with hm | hm
  · exact h x hm hxi
  · simp [hm]

/-- An iteration that takes the missed branch de-schedules every document
with the record's id. -/
lemma processReminder_missed_sets (fail : Reminder → Option String)
    (now : Int) (st : ReloadState) (r : Reminder) (t : Int)
    (hf : fail r = none) (ht : r.reminderTime = some t)
    (h1 : t ≤ now) (h2 : ¬ now - t ≤ 300) :
    ∀ x ∈ (processReminder fail now st r).store, x.id = r.id →
      x.status ≠ "scheduled" := by
  intro x hx hxi
  rw [processReminder_eq_missed fail now st r t hf ht h1 h2] at hx
  simp only [setById, List.mem_map] at hx
  obtain ⟨y, _, hxy⟩ := hx
  by_cases hid : y.id == r.id
  · rw [if_pos hid] at hxy
    rw [← hxy]
    simp [markMissed]
  · rw [if_neg hid] at hxy
    rw [← hxy] at hxi
    simp [hxi] at hid

/-- An iteration that takes the schedule branch leaves the record's job
handle present. -/
lemma processReminder_schedule_job (fail : Reminder → Option String)
    (now : Int) (st : ReloadState) (r : Reminder) (t : Int)
    (hf : fail r = none) (ht : r.reminderTime = some t)
    (hb : now < t ∨ now - t ≤ 300) :
    hasJob (processReminder fail now st r).jobs (jobIdOf r) = true := by
  rw [processReminder_eq_schedule fail now st r t hf ht hb]
  exact scheduleStep_hasJob st r t

/-! Lemmas about the whole reload fold. -/

lemma foldl_jobs_mono (fail : Reminder → Option String) (now : Int)
    (L : List Reminder) (jid : String) :
    ∀ st : ReloadState, hasJob st.jobs jid = true →
      hasJob (L.foldl (processReminder fail now) st).jobs jid = true := by
  induction L with
  | nil => intro st h; simpa using h
  | cons r tl ih =>
    intro st h
    exact ih _ (processReminder_jobs_mono fail now st r jid h)

lemma foldl_store_mem (fail : Reminder → Option String) (now : Int)
    (L : List Reminder) :
    ∀ (st : ReloadState) (x : Reminder),
      x ∈ (L.foldl (processReminder fail now) st).store →
      x ∈ st.store ∨ x.status = "missed" := by
  induction L with
  | nil => intro st x h; exact Or.inl (by simpa using h)
  | cons r tl ih =>
    intro st x h
    rcases ih _ x h with hm | hm
    · exact processReminder_store_mem fail now st r hm
    · exact Or.inr hm

lemma foldl_unscheduled_perm (fail : Reminder → Option String) (now : Int)
    (L : List Reminder) (i : Nat) :
    ∀ st : ReloadState,
      (∀ x ∈ st.store, x.id = i → x.status ≠ "scheduled") →
      ∀ x ∈ (L.foldl (processReminder fail now) st).store, x.id = i →
        x.status ≠ "scheduled" := by
  induction L with
  | nil => intro st h; simpa using h
  | cons r tl ih =>
    intro st h
    exact ih _ (processReminder_unscheduled_perm fail now st r i h)

/-- A record of the processed list that falls past the grace period ends
the run with every store document of its id de-scheduled. -/
lemma foldl_missed_perm (fail : Reminder → Option String) (now : Int)
    (L : List Reminder) (r : Reminder) (t : Int)
    (hf : fail r = none) (ht : r.reminderTime = some t)
    (h1 : t ≤ now) (h2 : ¬ now - t ≤ 300) :
    ∀ st : ReloadState, r ∈ L →
      ∀ x ∈ (L.foldl (processReminder fail now) st).store, x.id = r.id →
        x.status ≠ "scheduled" := by
  induction L with
  | nil =>
    intro st h
    exact absurd h (List.not_mem_nil r)
  | cons a tl ih =>
    intro st hmem
    rcases List.mem_cons.mp hmem with rfl | hmem
    · exact foldl_unscheduled_perm fail now tl r.id _
        (processReminder_missed_sets fail now st r t hf ht h1 h2)
    · exact ih _ hmem

/-- A record of the processed list that is future or within grace ends the
run with its job handle present. -/
lemma foldl_schedule_job (fail : Reminder → Option String) (now : Int)
    (L : List Reminder) (r : Reminder) (t : Int)
    (hf : fail r = none) (ht : r.reminderTime = some t)
    (hb : now < t ∨ now - t ≤ 300) :
    ∀ st : ReloadState, r ∈ L →
      hasJob (L.foldl (processReminder fail now) st).jobs (jobIdOf r) = true := by
  induction L with
  | nil =>
    intro st h
    exact absurd h (List.not_mem_nil r)
  | cons a tl ih =>
    intro st hmem
    rcases List.mem_cons.mp hmem with rfl | hmem
    · exact foldl_jobs_mono fail now tl _ _
        (processReminder_schedule_job fail now st r t hf ht hb)
    · exact ih _ hmem

/-- When every record of the list is either faulty or already has its job
handle with a schedule-branch time, the fold leaves the store and the job
table untouched. -/
lemma foldl_noop (fail : Reminder → Option String) (now : Int)
    (L : List Reminder) :
    ∀ st : ReloadState,
      (∀ r ∈ L, (∃ e, fail r = some e) ∨
        ∃ t, r.reminderTime = some t ∧ (now < t ∨ now - t ≤ 300) ∧
          hasJob st.jobs (jobIdOf r) = true) →
      (L.foldl (processReminder fail now) st).store = st.store ∧
      (L.foldl (processReminder fail now) st).jobs = st.jobs := by
  induction L with
  | nil =>
    intro st _
    exact ⟨rfl, rfl⟩
  | cons r tl ih =>
    intro st h
    have hstep : processReminder fail now st r = st ∨
        processReminder fail now st r = { st with errors := st.errors + 1 } := by
      rcases hfr : fail r with _ | e
      · rcases h r (List.mem_cons_self r tl) with ⟨e, he⟩ | ⟨t, ht, hb, hj⟩
        · rw [hfr] at he
          exact absurd he (by simp)
        · left
          rw [processReminder_eq_schedule fail now st r t hfr ht hb]
          exact scheduleStep_of_hasJob st r t hj
      · right
        exact processReminder_eq_fail fail now st r e hfr
    have hsj : (processReminder fail now st r).store = st.store ∧
        (processReminder fail now st r).jobs = st.jobs := by
      rcases hstep with h' | h' <;> rw [h'] <;> exact ⟨rfl, rfl⟩
    have htl : ∀ r' ∈ tl, (∃ e, fail r' = some e) ∨
        ∃ t, r'.reminderTime = some t ∧ (now < t ∨ now - t ≤ 300) ∧
          hasJob (processReminder fail now st r).jobs (jobIdOf r') = true := by
      intro r' hr'
      rcases h r' (List.mem_cons_of_mem r hr') with hh | ⟨t, ht, hb, hj⟩
      · exact Or.inl hh
      · exact Or.inr ⟨t, ht, hb, by rw [hsj.2]; exact hj⟩
    have hrec := ih (processReminder fail now st r) htl
    rw [List.foldl_cons]
    exact ⟨hrec.1.trans hsj.1, hrec.2.trans hsj.2⟩

/-- C7: idempotent reconciliation.  Running `reload_reminders` a second
time on the state the first run left behind changes neither the store nor
the scheduler's job table: for every still-scheduled reminder the second
run finds the existing `reminder_{id}` handle (or takes the same faulty
path) and adds no duplicate entry. -/
theorem reload_idempotent (fail : Reminder → Option String) (now : Int)
    (store : List Reminder) (jobs : List (String × Int)) :
    (runReload fail now (runReload fail now store jobs).store
        (runReload fail now store jobs).jobs).store =
      (runReload fail now store jobs).store ∧
    (runReload fail now (runReload fail now store jobs).store
        (runReload fail now store jobs).jobs).jobs =
      (runReload fail now store jobs).jobs := by
  have hrun : ∀ (s : List Reminder) (j : List (String × Int)),
      runReload fail now s j =
        (scheduledQuery s).foldl (processReminder fail now) ⟨s, j, 0, 0, 0⟩ :=
    fun s j => rfl
  set s1 := runReload fail now store jobs with hs1
  have hcond : ∀ r ∈ scheduledQuery s1.store, (∃ e, fail r = some e) ∨
      ∃ t, r.reminderTime = some t ∧ (now < t ∨ now - t ≤ 300) ∧
        hasJob s1.jobs (jobIdOf r) = true := by
    intro r hr
    rw [scheduledQuery, List.mem_filter] at hr
    obtain ⟨hmem, hpred⟩ := hr
    rw [Bool.and_eq_true] at hpred
    obtain ⟨hst, hsome⟩ := hpred
    have hstatus : r.status = "scheduled" := by simpa using hst
    obtain ⟨t, ht⟩ := Option.isSome_iff_exists.mp hsome
    rcases hfr : fail r with _ | e
    · -- a record still scheduled after the first run is an unchanged
      -- record of the original store
      have hmem1 : r ∈ ((scheduledQuery store).foldl
          (processReminder fail now) ⟨store, jobs, 0, 0, 0⟩).store := by
        rw [hs1, hrun] at hmem
        exact hmem
      have hmem0 : r ∈ store := by
        rcases foldl_store_mem fail now (scheduledQuery store)
            ⟨store, jobs, 0, 0, 0⟩ r hmem1 with hm | hm
        · exact hm
        · rw [hstatus] at hm
          exact absurd hm (by decide)
      have hmemL0 : r ∈ scheduledQuery store := by
        rw [scheduledQuery, List.mem_filter]
        exact ⟨hmem0, by simp [hstatus, ht]⟩
      by_cases hb : now < t ∨ now - t ≤ 300
      · refine Or.inr ⟨t, ht, hb, ?_⟩
        have hjob := foldl_schedule_job fail now (scheduledQuery store) r t
          hfr ht hb ⟨store, jobs, 0, 0, 0⟩ hmemL0
        rw [hs1, hrun]
        exact hjob
      · exfalso
        have h1 : t ≤ now := by omega
        have h2 : ¬ now - t ≤ 300 := by omega
        exact foldl_missed_perm fail now (scheduledQuery store) r t hfr ht
          h1 h2 ⟨store, jobs, 0, 0, 0⟩ hmemL0 r hmem1 rfl hstatus
    · exact Or.inl ⟨e, hfr ▸ rfl⟩
  have hnoop := foldl_noop fail now (scheduledQuery s1.store)
    ⟨s1.store, s1.jobs, 0, 0, 0⟩ hcond
  rw [hrun s1.store s1.jobs]
  exact hnoop

/-! Fault containment of the reload loop: a per-record exception only
bumps the error counter. -/

lemma processReminder_errors_comm (fail : Reminder → Option String)
    (now : Int) (st : ReloadState) (r : Reminder) (k : Nat) :
    processReminder fail now { st with errors := st.errors + k } r =
      { processReminder fail now st r with
          errors := (processReminder fail now st r).errors + k } := by
  rcases hfr : fail r with _ | e
  · rcases hr : r.reminderTime with _ | t
    · simp only [processReminder, hfr, hr]
      simp [ReloadState.mk.injEq]
      omega
    · by_cases h1 : t ≤ now
      · by_cases h2 : now - t ≤ 300
        · by_cases h3 : hasJob st.jobs (jobIdOf r) = true <;>
            · simp [processReminder, scheduleStep, hfr, hr, h1, h2, h3]
        · simp [processReminder, hfr, hr, h1, h2]
      · by_cases h3 : hasJob st.jobs (jobIdOf r) = true <;>
          · simp [processReminder, scheduleStep, hfr, hr, h1, h3]
  · simp only [processReminder, hfr]
    simp [ReloadState.mk.injEq]
    omega

lemma foldl_errors_comm (fail : Reminder → Option String) (now : Int)
    (L : List Reminder) :
    ∀ (st : ReloadState) (k : Nat),
      L.foldl (processReminder fail now) { st with errors := st.errors + k } =
        { L.foldl (processReminder fail now) st with
            errors := (L.foldl (processReminder fail now) st).errors + k } := by
  induction L with
  | nil => intro st k; rfl
  | cons r tl ih =>
    intro st k
    rw [List.foldl_cons, List.foldl_cons, processReminder_errors_comm]
    exact ih (processReminder fail now st r) k

/-- The reload fold over faulty and clean records together equals the
fold over the clean records, with the error counter counting the faulty
ones. -/
lemma foldl_fault_split (fail : Reminder → Option String) (now : Int)
    (L : List Reminder) :
    ∀ st : ReloadState,
      L.foldl (processReminder fail now) st =
        { (L.filter (fun r => (fail r).isNone)).foldl
            (processReminder fail now) st with
          errors := ((L.filter (fun r => (fail r).isNone)).foldl
              (processReminder fail now) st).errors +
            (L.filter (fun r => (fail r).isSome)).length } := by
  induction L with
  | nil => intro st; rfl
  | cons r tl ih =>
    intro st
    rcases hfr : fail r with _ | e
    · have hA : (r :: tl).filter (fun x => (fail x).isNone) =
          r :: tl.filter (fun x => (fail x).isNone) := by
        simp [List.filter_cons, hfr]
      have hB : (r :: tl).filter (fun x => (fail x).isSome) =
          tl.filter (fun x => (fail x).isSome) := by
        simp [List.filter_cons, hfr]
      rw [List.foldl_cons, hA, hB, List.foldl_cons]
      exact ih (processReminder fail now st r)
    · have hA : (r :: tl).filter (fun x => (fail x).isNone) =
          tl.filter (fun x => (fail x).isNone) := by
        simp [List.filter_cons, hfr]
      have hB : (r :: tl).filter (fun x => (fail x).isSome) =
          r :: tl.filter (fun x => (fail x).isSome) := by
        simp [List.filter_cons, hfr]
      rw [List.foldl_cons, processReminder_eq_fail fail now st r e hfr, hA, hB]
      rw [foldl_errors_comm fail now tl st 1, ih st]
      simp [ReloadState.mk.injEq]
      omega

/-- C10: `reload_reminders` contains every failure.  An exception raised
before the per-record loop (query fault) yields the error dict with
nothing mutated; an exception raised while processing any single reminder
only increments the error counter, and the run is otherwise exactly the
run over the records that do not fault — one malformed record cannot
prevent the others from being reconciled, and no exception escapes. -/
theorem reload_fault_containment (queryFault : Option String)
    (fail : Reminder → Option String) (now : Int)
    (store : List Reminder) (jobs : List (String × Int)) :
    reload_reminders queryFault fail now store jobs =
      match queryFault with
      | some e => (ReloadResult.errorDict e, store, jobs)
      | none =>
        let good := (scheduledQuery store).filter (fun r => (fail r).isNone)
        let bad := (scheduledQuery store).filter (fun r => (fail r).isSome)
        let st := good.foldl (processReminder fail now) ⟨store, jobs, 0, 0, 0⟩
        (ReloadResult.counts st.reloaded st.skipped (st.errors + bad.length),
          st.store, st.jobs) := by
  rcases queryFault with _ | e
  · show (let st := runReload fail now store jobs
      ((ReloadResult.counts st.reloaded st.skipped st.errors, st.store,
        st.jobs) : ReloadResult × List Reminder × List (String × Int))) = _
    rw [show runReload fail now store jobs =
        (scheduledQuery store).foldl (processReminder fail now)
          ⟨store, jobs, 0, 0, 0⟩ from rfl]
    rw [foldl_fault_split fail now (scheduledQuery store) ⟨store, jobs, 0, 0, 0⟩]
  · rfl

/-! ### Reminder Execution Handler (tools/reminder.py `send_reminder`,
routers/reminder.py `reminder_consumer`) -/

/-- The record update `{"$set": {"status": "sent", "sent_at": now}}`. -/
def markSent (now : Int) (x : Reminder) : Reminder :=
  { x with status := "sent", sentAt := some now }

/-- The record update `{"$set": {"status": "failed", "error": str(e)}}`. -/
def markFailed (e : String) (x : Reminder) : Reminder :=
  { x with status := "failed", error := some e }

/-- Environment of the execution handler.  `loopAvailable` models
`get_event_loop()` returning a usable loop, `submitError` an exception
raised by `asyncio.run_coroutine_threadsafe` itself, and
`deliveryOutcome` the eventual result of the submitted WhatsApp
coroutine — a result the handler never waits for or observes. -/
structure SendEnv where
  loopAvailable : Bool
  submitError : Option String
  deliveryOutcome : Bool
deriving DecidableEq, Repr

/-- World state the execution handler touches: the reminder store and the
outbox of submitted (phone number, message) sends. -/
structure SendWorld where
  store : List Reminder
  outbox : List (String × String)
deriving DecidableEq, Repr

/-- tools/reminder.py `send_reminder` (lines 320-359): load the reminder;
if absent, log and return.  Otherwise submit the WhatsApp coroutine
fire-and-forget when a loop is available, then mark the record `sent`;
any exception inside the `try` is caught and the record is marked
`failed` with the error string. -/
def send_reminder (env : SendEnv) (now : Int) (rid : Nat) (w : SendWorld) :
    SendWorld :=
  match w.store.find? (fun x => x.id == rid) with
  | none => w
  | some r =>
    if env.loopAvailable then
      match env.submitError with
      | some e => { w with store := setById w.store rid (markFailed e) }
      | none =>
          { store := setById w.store rid (markSent now),
            outbox := w.outbox ++ [(r.phoneNumber, r.message)] }
    else
      -- `if loop:` is false: no send is submitted, yet the update still runs
      { w with store := setById w.store rid (markSent now) }

/-- JSON body returned by `POST /reminder/send`. -/
structure ConsumerResponse where
  status : String
  message : Option String
deriving DecidableEq, Repr

/-- routers/reminder.py `reminder_consumer` (lines 14-36).  This route has
no `try/except`: a failing submission propagates (HTTP 500), and
`run_coroutine_threadsafe` is called without checking the loop for
`None`. -/
def reminder_consumer (env : SendEnv) (now : Int) (rid : Nat)
    (w : SendWorld) : Except String (ConsumerResponse × SendWorld) :=
  match w.store.find? (fun x => x.id == rid) with
  | none => .ok (⟨"error", some "Reminder not found"⟩, w)
  | some r =>
    if env.loopAvailable then
      match env.submitError with
      | some e => .error e
      | none =>
          .ok (⟨"success", none⟩,
            { store := setById w.store rid (markSent now),
              outbox := w.outbox ++ [(r.phoneNumber, r.message)] })
    else .error "run_coroutine_threadsafe: loop must not be None"

/-- `find?` by id commutes with an id-preserving `setById`. -/
lemma find_setById (i : Nat) (f : Reminder → Reminder)
    (hf : ∀ x, (f x).id = x.id) (store : List Reminder) (r : Reminder)
    (h : store.find? (fun x => x.id == i) = some r) :
    (setById store i f).find? (fun x => x.id == i) = some (f r) := by
  induction store with
  | nil => simp at h
  | cons a tl ih =>
    have hcons : setById (a :: tl) i f =
        (if (a.id == i) = true then f a else a) :: setById tl i f := rfl
    by_cases ha : (a.id == i) = true
    · simp only [List.find?_cons, ha] at h
      obtain rfl : a = r := by simpa using h
      have ha2 : ((f a).id == i) = true := by
        rw [show (f a).id = a.id from hf a]
        exact ha
      rw [hcons, if_pos ha]
      simp [List.find?_cons, ha2]
    · rw [Bool.not_eq_true] at ha
      simp only [List.find?_cons, ha] at h
      rw [hcons, if_neg (by simp [ha])]
      simp only [List.find?_cons, ha]
      exact ih h

/-- C2 counterexample: a reminder already in the terminal status `missed`
is re-transitioned to `sent` by a later invocation of the Execution
Handler — a terminal status is not preserved by subsequent operations. -/
theorem send_reminder_overwrites_missed :
    (send_reminder ⟨true, none, true⟩ 100 1
        { store := [{ id := 1, phoneNumber := "p", message := "m",
                      status := "missed", missedAt := some 50 }],
          outbox := [] }).store.map Reminder.status = ["sent"] := by
  decide

/-- C2 amended: the status writes of the Execution Handler filter only on
the reminder id, not on `status == "scheduled"`.  Whatever the prior
status of the stored record, a re-invocation with a loop available
rewrites it to `sent` (no exception) or `failed` (submission exception),
and `reminder_consumer` likewise rewrites it to `sent`. -/
theorem status_write_unconditional (env : SendEnv) (now : Int) (rid : Nat)
    (w : SendWorld) (r : Reminder)
    (hfind : w.store.find? (fun x => x.id == rid) = some r)
    (hloop : env.loopAvailable = true) :
    (env.submitError = none →
      (send_reminder env now rid w).store.find? (fun x => x.id == rid) =
        some (markSent now r) ∧
      reminder_consumer env now rid w =
        .ok (⟨"success", none⟩,
          { store := setById w.store rid (markSent now),
            outbox := w.outbox ++ [(r.phoneNumber, r.message)] })) ∧
    (∀ e, env.submitError = some e →
      (send_reminder env now rid w).store.find? (fun x => x.id == rid) =
        some (markFailed e r)) := by
  constructor
  · intro he
    constructor
    · simp only [send_reminder, hfind, hloop, if_true, he]
      exact find_setById rid (markSent now) (fun x => rfl) w.store r hfind
    · simp only [reminder_consumer, hfind, hloop, if_true, he]
  · intro e he
    simp only [send_reminder, hfind, hloop, if_true, he]
    exact find_setById rid (markFailed e) (fun x => rfl) w.store r hfind

/-- Witness for C2's amended theorem at a concrete store. -/
theorem status_write_unconditional_witness :
    ([({ id := 3, status := "missed" } : Reminder)].find?
        (fun x => x.id == 3) = some { id := 3, status := "missed" }) ∧
    (send_reminder ⟨true, none, true⟩ 9 3
        { store := [{ id := 3, status := "missed" }], outbox := [] }).store.find?
        (fun x => x.id == 3) =
      some (markSent 9 { id := 3, status := "missed" }) := by
  refine ⟨rfl, ?_⟩
  exact ((status_write_unconditional ⟨true, none, true⟩ 9 3
    { store := [{ id := 3, status := "missed" }], outbox := [] }
    { id := 3, status := "missed" } rfl rfl).1 rfl).1

/-- C3 counterexample: with no event loop available, `send_reminder`
submits no send at all (the outbox stays empty) yet still marks the
reminder `sent`. -/
theorem send_reminder_marks_sent_without_send :
    send_reminder ⟨false, none, false⟩ 100 2
        { store := [{ id := 2, phoneNumber := "p", message := "m",
                      status := "scheduled" }], outbox := [] } =
      { store := [{ id := 2, phoneNumber := "p", message := "m",
                    status := "sent", sentAt := some 100 }], outbox := [] } := by
  decide

/-- C3 amended: the store update is sequenced after the fire-and-forget
submission of the send, not after its completion — the handler's result
is independent of the delivery outcome — and when no event loop is
available the record is still marked `sent` with no send submitted. -/
theorem send_update_independent_of_delivery (env : SendEnv) (now : Int)
    (rid : Nat) (w : SendWorld) (b : Bool) :
    send_reminder { env with deliveryOutcome := b } now rid w =
      send_reminder env now rid w ∧
    (∀ r, w.store.find? (fun x => x.id == rid) = some r →
      env.loopAvailable = false →
      (send_reminder env now rid w).outbox = w.outbox ∧
      (send_reminder env now rid w).store.find? (fun x => x.id == rid) =
        some (markSent now r)) := by
  constructor
  · cases env
    rfl
  · intro r hfind hloop
    constructor
    · simp [send_reminder, hfind, hloop]
    · simp only [send_reminder, hfind, hloop, Bool.false_eq_true, if_false]
      exact find_setById rid (markSent now) (fun x => rfl) w.store r hfind

/-- Witness for C3's amended theorem at a concrete store. -/
theorem send_update_independent_witness :
    ([({ id := 4, status := "scheduled" } : Reminder)].find?
        (fun x => x.id == 4) = some { id := 4, status := "scheduled" }) ∧
    (send_reminder ⟨false, none, true⟩ 9 4
        { store := [{ id := 4, status := "scheduled" }], outbox := [] }).outbox
      = [] ∧
    (send_reminder ⟨false, none, true⟩ 9 4
        { store := [{ id := 4, status := "scheduled" }],
          outbox := [] }).store.find? (fun x => x.id == 4) =
      some (markSent 9 { id := 4, status := "scheduled" }) := by
  have h := (send_update_independent_of_delivery ⟨false, none, true⟩ 9 4
    { store := [{ id := 4, status := "scheduled" }], outbox := [] } true).2
    { id := 4, status := "scheduled" } rfl rfl
  exact ⟨rfl, h.1, h.2⟩
/-! ### Time Expression Parser (tools/reminder.py `create_custom_reminder`)

String primitives are defined over `List Char` so that they evaluate by
structural recursion; they model the Python `str` methods used by the
source for the ASCII inputs the parser handles. -/

/-- `s.lower()`. -/
def pyLower (s : String) : String := ⟨s.data.map Char.toLower⟩

/-- `s.strip()`. -/
def pyStrip (s : String) : String :=
  ⟨((s.data.dropWhile Char.isWhitespace).reverse.dropWhile
      Char.isWhitespace).reverse⟩

/-- `s.startswith(p)`. -/
def pyStartsWith (s p : String) : Bool := p.data.isPrefixOf s.data

/-- `s.endswith(p)`. -/
def pyEndsWith (s p : String) : Bool := p.data.isSuffixOf s.data

/-- `p in s` for a non-empty pattern. -/
def containsAux (pat : List Char) : List Char → Bool
  | [] => pat.isEmpty
  | c :: cs => pat.isPrefixOf (c :: cs) || containsAux pat cs

/-- `p in s`. -/
def pyContains (s p : String) : Bool := containsAux p.data s.data

/-- Helper for `s.replace(old, new)`: left-to-right, non-overlapping,
every occurrence; `k` counts pattern characters still to skip after a
match (structural recursion on the subject list, so it evaluates in the
kernel). -/
def replaceGo (pat rep : List Char) : Nat → List Char → List Char
  | _, [] => []
  | Nat.succ k, _ :: cs => replaceGo pat rep k cs
  | 0, c :: cs =>
    if pat ≠ [] ∧ pat.isPrefixOf (c :: cs) then
      rep ++ replaceGo pat rep (pat.length - 1) cs
    else c :: replaceGo pat rep 0 cs

/-- `s.replace(old, new)` (all call sites pass a non-empty `old`). -/
def pyReplace (s old new : String) : String :=
  ⟨replaceGo old.data new.data 0 s.data⟩

/-- tools/reminder.py lines 144-168: normalisation of the `remind_in`
text before parsing. -/
def normalizeRemindIn (remind_in : String) : String :=
  let lower := pyStrip (pyLower remind_in)
  let n1 :=
    if pyStartsWith lower "the next " then pyReplace lower "the next " "in "
    else if pyStartsWith lower "next " then pyReplace lower "next " "in "
    else lower
  let n2 :=
    if pyContains n1 "mins" && !(pyContains n1 "minutes") then
      pyReplace n1 "mins" "minutes"
    else n1
  let n3 :=
    if n2 = "in hour" then "in 1 hour"
    else if n2 = "in minute" then "in 1 minute"
    else n2
  if (pyEndsWith n3 " minutes" || pyEndsWith n3 " hours" ||
      pyEndsWith n3 " days") && !(pyStartsWith n3 "in ") then
    "in " ++ n3
  else n3

/-- tools/reminder.py lines 197-226: run the three dateparser strategies
(the settings differ only in PREFER_DATES_FROM, abstracted as the index
0-2) keeping the last parse result, breaking at the first strictly-future
instant, and skipping past results.  The oracle `parse` stands for
`dateparser.parse`. -/
def tryStrategies (parse : String → Nat → Option Int) (s : String)
    (now : Int) : Option Int :=
  match parse s 0 with
  | some t0 =>
    if t0 ≤ now then
      match parse s 1 with
      | some t1 => if t1 ≤ now then parse s 2 else some t1
      | none => parse s 2
    else some t0
  | none =>
    match parse s 1 with
    | some t1 => if t1 ≤ now then parse s 2 else some t1
    | none => parse s 2

/-- `int(c)` for a digit character. -/
def charDigitVal (c : Char) : Nat := c.toNat - 48

/-- The `\s*(am|pm)?$` tail of the fallback clock-time regex. -/
def clockTail (hour : Nat) (minute : Option Nat) (s : List Char) :
    Option (Nat × Nat × Option String) :=
  match s.dropWhile Char.isWhitespace with
  | [] => some (hour, minute.getD 0, none)
  | ['a', 'm'] => some (hour, minute.getD 0, some "am")
  | ['p', 'm'] => some (hour, minute.getD 0, some "pm")
  | _ => none

/-- The optional `(?::(\d{2}))?` group then the tail: a `:` not followed
by exactly two digits fails the whole match, as the tail cannot consume a
`:`. -/
def clockAfterHour (hour : Nat) (s : List Char) :
    Option (Nat × Nat × Option String) :=
  match s with
  | ':' :: m1 :: m2 :: rest =>
    if m1.isDigit && m2.isDigit then
      clockTail hour (some (10 * charDigitVal m1 + charDigitVal m2)) rest
    else none
  | ':' :: _ => none
  | _ => clockTail hour none s

/-- The fallback regex `^(\d{1,2})(?::(\d{2}))?\s*(am|pm)?$`
(tools/reminder.py line 234) as a deterministic matcher.  The hour group
is greedy; when the second character is also a digit the one-digit
alternative cannot match either, since the remainder would then begin
with a digit, which none of `:`, `\s`, `am`, `pm` or the end can
consume. -/
def clockRegexMatch (s : List Char) : Option (Nat × Nat × Option String) :=
  match s with
  | c1 :: c2 :: rest =>
    if c1.isDigit then
      if c2.isDigit then
        clockAfterHour (10 * charDigitVal c1 + charDigitVal c2) rest
      else clockAfterHour (charDigitVal c1) (c2 :: rest)
    else none
  | [c1] => if c1.isDigit then clockAfterHour (charDigitVal c1) [] else none
  | [] => none

/-- tools/reminder.py lines 242-246: the am/pm conversion to 24-hour. -/
def to24Hour (hour : Nat) (am_pm : Option String) : Nat :=
  if am_pm = some "pm" ∧ hour ≠ 12 then hour + 12
  else if am_pm = some "am" ∧ hour = 12 then 0
  else hour

/-- `now.replace(hour=h, minute=m, second=0, microsecond=0)`: `none` when
the constructor raises ValueError for an out-of-range value (caught by
the fallback's `except ValueError`). -/
def pyReplaceClock (now : Int) (hour minute : Nat) : Option Int :=
  if hour ≤ 23 ∧ minute ≤ 59 then
    some (dayStart now + (hour : Int) * 3600 + (minute : Int) * 60)
  else none

/-- The manual clock-time fallback (tools/reminder.py lines 229-262):
match the regex against the lowered, stripped original input, build
today at that time, and roll one day forward when the instant is not
after `now`. -/
def manualFallback (remind_in : String) (now : Int) : Option Int :=
  match clockRegexMatch (pyStrip (pyLower remind_in)).data with
  | none => none
  | some (hour, minute, am_pm) =>
    match pyReplaceClock now (to24Hour hour am_pm) minute with
    | none => none
    | some t => some (if t ≤ now then t + 86400 else t)

/-- The complete time-resolution pipeline of `create_custom_reminder`
(tools/reminder.py lines 140-262): the three strategies on the normalised
input, the same three on the original input when the first loop ended
with None, then the manual fallback. -/
def resolveReminderTime (parse : String → Nat → Option Int)
    (remind_in : String) (now : Int) : Option Int :=
  let afterNorm := tryStrategies parse (normalizeRemindIn remind_in) now
  let afterOrig :=
    match afterNorm with
    | none => tryStrategies parse remind_in now
    | some t => some t
  match afterOrig with
  | none => manualFallback remind_in now
  | some t => some t

/-- The user-visible outcome of `create_custom_reminder`; each
constructor carries exactly the data the source interpolates into the
response dict's message. -/
inductive CustomOutcome where
  | parseFail (origInput : String)
  | pastTime (origInput : String) (interpreted now : Int)
  | created (message : String) (fireAt : Int) (reminderId : Nat)
deriving DecidableEq, Repr

/-- The `"status"` key of the response dict. -/
def customStatus : CustomOutcome → String
  | .created _ _ _ => "success"
  | _ => "error"

/-- State touched by reminder creation: the store and the APScheduler job
table. -/
structure CreateState where
  store : List Reminder
  jobs : List (String × Int)
deriving DecidableEq, Repr

/-- tools/reminder.py `create_custom_reminder` (lines 127-318): resolve
the time expression; fail with the could-not-understand message when
unresolved; fail with the past-time message (carrying the interpreted and
current instants) when not strictly beyond `now + 1s`; otherwise insert
the record and schedule the `reminder_{id}` job.  The only uncaught raise
is the missing-user-id ValueError. -/
def create_custom_reminder (parse : String → Nat → Option Int)
    (message remind_in : String) (userId : Option String) (phone : String)
    (now : Int) (newId : Nat) (st : CreateState) :
    Except String (CustomOutcome × CreateState) :=
  match userId with
  | none => .error "Missing user_id in create_custom_reminder() call!"
  | some uid =>
    match resolveReminderTime parse remind_in now with
    | none => .ok (.parseFail remind_in, st)
    | some t =>
      if t ≤ now + 1 then .ok (.pastTime remind_in t now, st)
      else
        let doc : Reminder :=
          { id := newId, userId := uid, phoneNumber := phone,
            rType := "custom_reminder",
            message := "⏰ Reminder: " ++ message,
            reminderTime := some t, status := "scheduled",
            createdAt := some now,
            originalTimeInput := some remind_in,
            normalizedTimeInput := some (normalizeRemindIn remind_in) }
        .ok (.created message t newId,
          { store := st.store ++ [doc],
            jobs := st.jobs ++ [("reminder_" ++ toString newId, t)] })

/-- C5: past-time rejection.  `create_custom_reminder` returns a success
outcome only when the resolved instant is strictly later than `now + 1`;
whenever the pipeline resolves the input to an instant at or before
`now + 1`, it returns the past-time error carrying both the interpreted
and the current instant, with the store and job table untouched. -/
theorem create_custom_past_rejection
    (parse : String → Nat → Option Int) (message remind_in uid phone : String)
    (now : Int) (newId : Nat) (st : CreateState)
    (out : CustomOutcome) (st' : CreateState)
    (h : create_custom_reminder parse message remind_in (some uid) phone now
        newId st = .ok (out, st')) :
    (∀ m t i, out = .created m t i → now + 1 < t) ∧
    (∀ t, resolveReminderTime parse remind_in now = some t → t ≤ now + 1 →
      out = .pastTime remind_in t now ∧ st' = st) := by
  unfold create_custom_reminder at h
  cases hres : resolveReminderTime parse remind_in now with
  | none =>
    rw [hres] at h
    simp only [Except.ok.injEq, Prod.mk.injEq] at h
    refine ⟨?_, ?_⟩
    · intro m t i hc
      rw [← h.1] at hc
      cases hc
    · intro t ht
      simp at ht
  | some t0 =>
    rw [hres] at h
    by_cases hle : t0 ≤ now + 1
    · simp only [if_pos hle, Except.ok.injEq, Prod.mk.injEq] at h
      refine ⟨?_, ?_⟩
      · intro m t i hc
        rw [← h.1] at hc
        cases hc
      · intro t ht hpast
        have ht0 : t0 = t := by simpa using ht
        subst ht0
        exact ⟨h.1.symm, h.2.symm⟩
    · simp only [if_neg hle, Except.ok.injEq, Prod.mk.injEq] at h
      refine ⟨?_, ?_⟩
      · intro m t i hc
        rw [← h.1] at hc
        cases hc
        omega
      · intro t ht hpast
        have ht0 : t0 = t := by simpa using ht
        omega

/-- Witness for C5 at a parse oracle that resolves every input to the
instant 0 with `now = 0`: the reminder is rejected as past and nothing
is persisted. -/
theorem create_custom_past_rejection_witness :
    create_custom_reminder (fun _ _ => some 0) "m" "x" (some "u") "p" 0 7
        ⟨[], []⟩ = .ok (.pastTime "x" 0 0, ⟨[], []⟩) ∧
    ((.pastTime "x" 0 0 : CustomOutcome) = .pastTime "x" 0 0 ∧
      (⟨[], []⟩ : CreateState) = (⟨[], []⟩ : CreateState)) := by
  refine ⟨rfl, ?_⟩
  exact (create_custom_past_rejection (fun _ _ => some 0) "m" "x" "u" "p" 0 7
    ⟨[], []⟩ (.pastTime "x" 0 0) ⟨[], []⟩ rfl).2 0 rfl (by omega)

/-- C8 counterexample: under the claim's stated precondition — every
dateparser strategy fails to yield a *future* instant — the fallback need
not run.  With the oracle whose every call returns the past instant 0 and
the input `"6pm"` at `now = 2025-01-01T19:00:00+08:00` (local day 20089):
the input matches the bare clock-time form, every strategy yields only
the non-future instant 0, yet the pipeline retains that last past result
(the `if not reminder_time:` guards are truthy-skipped), never runs the
fallback, resolves to 0 rather than the claimed
`2025-01-02T18:00:00+08:00`, and `create_custom_reminder` returns the
past-time error. -/
theorem clock_fallback_claim_refuted :
    clockRegexMatch (pyStrip (pyLower "6pm")).data =
      some (6, 0, some "pm") ∧
    (0 : Int) ≤ localTime 20089 19 0 0 ∧
    resolveReminderTime (fun _ _ => some 0) "6pm" (localTime 20089 19 0 0) =
      some 0 ∧
    some (0 : Int) ≠ some (localTime 20090 18 0 0) ∧
    create_custom_reminder (fun _ _ => some 0) "m" "6pm" (some "u") "p"
        (localTime 20089 19 0 0) 7 ⟨[], []⟩ =
      .ok (.pastTime "6pm" 0 (localTime 20089 19 0 0), ⟨[], []⟩) := by
  exact ⟨by decide, by decide, by decide, by decide, rfl⟩

/-- C8 amended: the manual clock-time fallback runs only when every
dateparser call returns no result at all — a value from the strategy
loops, even a past instant, is retained and the fallback is skipped.
Under that precondition, an input matching the bare clock-time regex with
in-range values resolves to today at that time, rolled one day forward
when the instant is not after `now`; in particular `"6pm"` at
`now = 2025-01-01T19:00:00+08:00` (local day number 20089) resolves to
`2025-01-02T18:00:00+08:00`. -/
theorem clock_fallback_resolution
    (parse : String → Nat → Option Int) (remind_in : String) (now : Int)
    (hour minute : Nat) (am_pm : Option String)
    (hnorm : ∀ i, parse (normalizeRemindIn remind_in) i = none)
    (horig : ∀ i, parse remind_in i = none)
    (hm : clockRegexMatch (pyStrip (pyLower remind_in)).data =
      some (hour, minute, am_pm))
    (hh : to24Hour hour am_pm ≤ 23) (hmin : minute ≤ 59) :
    (resolveReminderTime parse remind_in now =
      some (if dayStart now + (to24Hour hour am_pm : Int) * 3600 +
              (minute : Int) * 60 ≤ now then
        dayStart now + (to24Hour hour am_pm : Int) * 3600 +
          (minute : Int) * 60 + 86400
      else
        dayStart now + (to24Hour hour am_pm : Int) * 3600 +
          (minute : Int) * 60)) ∧
    (∀ parse2 : String → Nat → Option Int,
      (∀ i, parse2 "6pm" i = none) →
      resolveReminderTime parse2 "6pm" (localTime 20089 19 0 0) =
        some (localTime 20090 18 0 0)) ∧
    (∀ (p : String → Nat → Option Int) (s : String) (n t : Int),
      tryStrategies p (normalizeRemindIn s) n = some t →
      resolveReminderTime p s n = some t) := by
  refine ⟨?_, ?_, ?_⟩
  · have h1 : tryStrategies parse (normalizeRemindIn remind_in) now = none := by
      simp [tryStrategies, hnorm 0, hnorm 1, hnorm 2]
    have h2 : tryStrategies parse remind_in now = none := by
      simp [tryStrategies, horig 0, horig 1, horig 2]
    have h3 : pyReplaceClock now (to24Hour hour am_pm) minute =
        some (dayStart now + (to24Hour hour am_pm : Int) * 3600 +
          (minute : Int) * 60) := by
      simp [pyReplaceClock, hh, hmin]
    simp only [resolveReminderTime, h1, h2, manualFallback, hm, h3]
  · intro parse2 hp
    have hn6 : normalizeRemindIn "6pm" = "6pm" := by decide
    have h1 : tryStrategies parse2 (normalizeRemindIn "6pm")
        (localTime 20089 19 0 0) = none := by
      rw [hn6]
      simp [tryStrategies, hp 0, hp 1, hp 2]
    have h2 : tryStrategies parse2 "6pm" (localTime 20089 19 0 0) = none := by
      simp [tryStrategies, hp 0, hp 1, hp 2]
    have h3 : manualFallback "6pm" (localTime 20089 19 0 0) =
        some (localTime 20090 18 0 0) := by decide
    simp only [resolveReminderTime, h1, h2, h3]
  · intro p s n t hval
    simp only [resolveReminderTime, hval]

/-- Witness for C8's amended theorem at the all-failing parse oracle and
the `"6pm"` scenario. -/
theorem clock_fallback_resolution_witness :
    resolveReminderTime (fun _ _ => none) "6pm" (localTime 20089 19 0 0) =
      some (localTime 20090 18 0 0) :=
  (clock_fallback_resolution (fun _ _ => none) "6pm" (localTime 20089 19 0 0)
    6 0 (some "pm") (fun _ => rfl) (fun _ => rfl) (by decide) (by decide)
    (by decide)).2.1 (fun _ _ => none) (fun _ => rfl)

/-- C9: an input matching the fallback regex with an out-of-range clock
value does not raise: the ValueError from `now.replace(...)` is caught,
the time stays unresolved, and `create_custom_reminder` returns (rather
than throws) the could-not-understand error quoting the original input,
with the state untouched. -/
theorem invalid_clock_value_contained
    (parse : String → Nat → Option Int) (message remind_in uid phone : String)
    (now : Int) (newId : Nat) (st : CreateState)
    (hour minute : Nat) (am_pm : Option String)
    (hnorm : ∀ i, parse (normalizeRemindIn remind_in) i = none)
    (horig : ∀ i, parse remind_in i = none)
    (hm : clockRegexMatch (pyStrip (pyLower remind_in)).data =
      some (hour, minute, am_pm))
    (hbad : ¬ (to24Hour hour am_pm ≤ 23 ∧ minute ≤ 59)) :
    create_custom_reminder parse message remind_in (some uid) phone now newId
        st = .ok (.parseFail remind_in, st) := by
  have h1 : tryStrategies parse (normalizeRemindIn remind_in) now = none := by
    simp [tryStrategies, hnorm 0, hnorm 1, hnorm 2]
  have h2 : tryStrategies parse remind_in now = none := by
    simp [tryStrategies, horig 0, horig 1, horig 2]
  have h3 : resolveReminderTime parse remind_in now = none := by
    simp [resolveReminderTime, h1, h2, manualFallback, hm, pyReplaceClock,
      hbad]
  simp [create_custom_reminder, h3]

/-- Witness for C9 at input `"25"` (hour 25 is out of range) with the
all-failing parse oracle. -/
theorem invalid_clock_value_witness :
    create_custom_reminder (fun _ _ => none) "m" "25" (some "u") "p" 0 7
        ⟨[], []⟩ = .ok (.parseFail "25", ⟨[], []⟩) :=
  invalid_clock_value_contained (fun _ _ => none) "m" "25" "u" "p" 0 7
    ⟨[], []⟩ 25 0 none (fun _ => rfl) (fun _ => rfl) (by decide) (by decide)

/-! ### Event reminders (tools/reminder.py `create_event_reminder`) -/

/-- The user-visible outcome of `create_event_reminder`; constructors
carry the data the source interpolates into the response dict. -/
inductive EventOutcome where
  | eventNotFound (title : String)
  | allDayEvent (title : String)
  | created (title : String) (minutesBefore : Nat) (eventAt reminderAt : Int)
      (reminderId : Nat)
deriving DecidableEq, Repr

/-- The `"status"` key of the response dict. -/
def eventStatus : EventOutcome → String
  | .created _ _ _ _ _ => "success"
  | _ => "error"

/-- The stored message text: the event title and the minutes-before
value interpolated as in the source's f-string. -/
def eventReminderMsg (title : String) (minutesBefore : Nat) : String :=
  "⏰ Reminder: '" ++ title ++ "' starts in " ++ toString minutesBefore ++ " minutes!"

/-- tools/reminder.py lines 89-125: compute
`reminder_time = event_datetime - minutes_before`, insert the record,
schedule the `reminder_{id}` job, return the success dict.  There is no
comparison of `reminder_time` against the current time anywhere in the
function. -/
def eventReminderBody (eventTitle : String) (minutesBefore : Nat)
    (uid phone : String) (eventDatetime : Int) (now : Int) (newId : Nat)
    (st : CreateState) : Except String (EventOutcome × CreateState) :=
  let reminderTime := eventDatetime - (minutesBefore : Int) * 60
  let doc : Reminder :=
    { id := newId, userId := uid, phoneNumber := phone,
      rType := "event_reminder", eventTitle := some eventTitle,
      eventDatetime := some eventDatetime,
      reminderTime := some reminderTime,
      minutesBefore := some minutesBefore,
      message := eventReminderMsg eventTitle minutesBefore,
      status := "scheduled", createdAt := some now }
  .ok (.created eventTitle minutesBefore eventDatetime reminderTime newId,
    { store := st.store ++ [doc],
      jobs := st.jobs ++ [("reminder_" ++ toString newId, reminderTime)] })

/-- tools/reminder.py `create_event_reminder` (lines 28-125).  `eventDT`
is the event instant when `event_date`/`event_time` were provided (ISO
parsing and timezone localisation by the `datetime`/`pytz`
collaborators); otherwise `calendarLookup` is the Google-Calendar search
collaborator: `none` = no matching event, `some none` = the first match
is an all-day event (ISO parse fails), `some (some t)` = the first
match's start instant.  The missing-user-id ValueError and the
AuthRequiredError are the uncaught raises. -/
def create_event_reminder (eventTitle : String) (minutesBefore : Nat)
    (userId : Option String) (phone : String) (eventDT : Option Int)
    (calendarLookup : Option (Option Int)) (tokenOk : Bool) (now : Int)
    (newId : Nat) (st : CreateState) :
    Except String (EventOutcome × CreateState) :=
  match userId with
  | none => .error "Missing user_id in create_event_reminder() call!"
  | some uid =>
    if !tokenOk then .error "AUTH_REQUIRED"
    else
      match eventDT with
      | some evt =>
          eventReminderBody eventTitle minutesBefore uid phone evt now newId st
      | none =>
        match calendarLookup with
        | none => .ok (.eventNotFound eventTitle, st)
        | some none => .ok (.allDayEvent eventTitle, st)
        | some (some evt) =>
            eventReminderBody eventTitle minutesBefore uid phone evt now newId
              st

/-- C6 counterexample: `create_event_reminder` with `minutes_before = 15`
for an event starting 10 minutes from now (`now = 0`, event at 600)
returns status `"success"` — there is no `"skipped"` status — and
persists a reminder record whose fire time, −300, is already in the
past. -/
theorem event_reminder_past_not_skipped :
    create_event_reminder "standup" 15 (some "u") "p" (some 600) none true 0 7
        ⟨[], []⟩ =
      .ok (.created "standup" 15 600 (-300) 7,
        ⟨[{ id := 7, userId := "u", phoneNumber := "p",
            rType := "event_reminder", eventTitle := some "standup",
            eventDatetime := some 600, reminderTime := some (-300),
            minutesBefore := some 15,
            message := eventReminderMsg "standup" 15,
            status := "scheduled", createdAt := some 0 }],
          [("reminder_7", -300)]⟩) ∧
    eventStatus (.created "standup" 15 600 (-300) 7) = "success" ∧
    ((-300 : Int) < 0) := by
  refine ⟨rfl, rfl, by decide⟩

/-- C6 amended: `create_event_reminder` performs no past-time check and
has no `"skipped"` outcome: whenever authentication succeeds and an
event instant is available, it persists a `scheduled` record with fire
time `event − minutes_before·60` and returns success, even when that
fire time is at or before the current time. -/
theorem event_reminder_no_past_check (eventTitle : String)
    (minutesBefore : Nat) (uid phone : String) (evt now : Int) (newId : Nat)
    (st : CreateState) (cal : Option (Option Int)) (tokenOk : Bool)
    (hTok : tokenOk = true) :
    create_event_reminder eventTitle minutesBefore (some uid) phone
        (some evt) cal tokenOk now newId st =
      .ok (.created eventTitle minutesBefore evt
            (evt - (minutesBefore : Int) * 60) newId,
        { store := st.store ++
            [{ id := newId, userId := uid, phoneNumber := phone,
               rType := "event_reminder", eventTitle := some eventTitle,
               eventDatetime := some evt,
               reminderTime := some (evt - (minutesBefore : Int) * 60),
               minutesBefore := some minutesBefore,
               message := eventReminderMsg eventTitle minutesBefore,
               status := "scheduled", createdAt := some now }],
          jobs := st.jobs ++
            [("reminder_" ++ toString newId,
              evt - (minutesBefore : Int) * 60)] }) := by
  subst hTok
  rfl

/-- Witness for C6's amended theorem at a concrete past-fire-time
input. -/
theorem event_reminder_no_past_check_witness :
    create_event_reminder "t" 30 (some "u") "p" (some 600) none true 0 9
        ⟨[], []⟩ =
      .ok (.created "t" 30 600 (600 - (30 : Int) * 60) 9,
        { store := [{ id := 9, userId := "u", phoneNumber := "p",
                      rType := "event_reminder", eventTitle := some "t",
                      eventDatetime := some 600,
                      reminderTime := some (600 - (30 : Int) * 60),
                      minutesBefore := some 30,
                      message := eventReminderMsg "t" 30,
                      status := "scheduled", createdAt := some 0 }],
          jobs := [("reminder_9", 600 - (30 : Int) * 60)] }) :=
  event_reminder_no_past_check "t" 30 "u" "p" 600 0 9 ⟨[], []⟩ none true rfl

end PaAgent
